import Mathlib

/-!
# Verification of the smithay `wayland/seat` module

Shallow embedding of `src/wayland/seat/mod.rs` (the `wl_seat` global glue of
the Paraworker/smithay repository): capability computation and broadcast,
global bind, per-binding request dispatch, binding destruction, client-scoped
queries and the `WaylandFocus` trait.

Modelling conventions:
* Wayland object identities (`ObjectId` of the connection backend) are modelled
  by a pair of a client number and a serial; two ids denote the same object
  exactly when the pairs are equal, and they belong to the same client exactly
  when the client numbers agree.
* A weak reference (`wayland_server::Weak`) stores the object it was downgraded
  from; resolving it (`upgrade`) consults an explicit liveness map
  `live : Nat → Bool` over object serials and succeeds exactly when the target
  is still live.  Equality between a weak reference and a resource is object
  identity (id equality), as in the connection runtime.
* Event sends (`wl_seat.name`, `wl_seat.capabilities`) and sub-object side
  effects (`data_init.init`, `new_pointer`/`new_kbd`/`new_touch`) are recorded
  in output lists instead of performed; handlers return the seat state they
  leave behind together with those lists.
-/

namespace SmithaySeat

/-- A Wayland object id: owning client connection number plus a serial that
identifies the object uniquely.  `same_client_as` of the runtime compares the
owning connections. -/
structure WlObjectId where
  client : Nat
  serial : Nat
deriving DecidableEq, Repr

/-- `ObjectId::same_client_as` of the connection runtime: true when both ids
originate from the same client connection. -/
def WlObjectId.same_client_as (a b : WlObjectId) : Bool :=
  a.client == b.client

/-- Model of `wl_surface::WlSurface`: a resource carrying its object id. -/
structure WlSurfaceRes where
  oid : WlObjectId
deriving DecidableEq, Repr

/-- `Resource::id` for a surface resource. -/
def WlSurfaceRes.id (s : WlSurfaceRes) : WlObjectId := s.oid

/-- Modelled from the spec: the pointer device handle (`crate::input::pointer`,
not under `src/`); this core only needs its identity, used when registering a
new per-client pointer sub-object with it. -/
structure PointerHandle where
  hid : Nat
deriving DecidableEq, Repr

/-- Modelled from the spec: the keyboard device handle (`crate::input::keyboard`,
not under `src/`); only its identity is needed here. -/
structure KeyboardHandle where
  hid : Nat
deriving DecidableEq, Repr

/-- Modelled from the spec: the touch device handle (`crate::input::touch`,
not under `src/`); only its identity is needed here. -/
structure TouchHandle where
  hid : Nat
deriving DecidableEq, Repr

/-- A per-client `WlSeat` resource: object id pieces, negotiated version, and
the user data attached at `data_init.init` time — `some arcId` holds the
identity of the shared `SeatRc` allocation wrapped by `SeatUserData`, `none`
models a resource carrying no seat user data. -/
structure WlSeatRes where
  client : Nat
  serial : Nat
  version : Nat
  udata : Option Nat
deriving DecidableEq, Repr

/-- `Resource::id` for a seat resource. -/
def WlSeatRes.rid (s : WlSeatRes) : WlObjectId :=
  { client := s.client, serial := s.serial }

/-- `wayland_server::Weak<WlSeat>`: a non-owning reference remembering the
resource it was downgraded from.  (External collaborator type, modelled at its
interface boundary: `upgrade` re-checks liveness, `id` and equality do not.) -/
structure WeakSeat where
  obj : WlSeatRes
deriving DecidableEq, Repr

/-- `Resource::downgrade`. -/
def WlSeatRes.downgrade (s : WlSeatRes) : WeakSeat := { obj := s }

/-- `Weak::id`: the stored object id, available without resolving. -/
def WeakSeat.wid (w : WeakSeat) : WlObjectId := w.obj.rid

/-- `Weak::upgrade` against the liveness map: yields the resource exactly when
its serial is still live, and fails (`none`, the `Err(InvalidId)` case) once
the object has been destroyed. -/
def WeakSeat.upgrade (live : Nat → Bool) (w : WeakSeat) : Option WlSeatRes :=
  if live w.obj.serial then some w.obj else none

/-- `PartialEq<WlSeat> for Weak<WlSeat>` of the connection runtime: object
identity, i.e. id equality. -/
def WeakSeat.eqRes (w : WeakSeat) (s : WlSeatRes) : Bool :=
  w.wid == s.rid

/-- Modelled from the spec: the Seat Shared State record
(`crate::input::Inner`, declared outside `src/`; its fields are exactly the
ones this module reads and writes): the three capability-handle presence
fields, the `known_seats` list of weak per-client bindings, and the advertised
global id. -/
structure Inner where
  pointer : Option PointerHandle
  keyboard : Option KeyboardHandle
  touch : Option TouchHandle
  known_seats : List WeakSeat
  global : Option Nat
deriving DecidableEq, Repr

/-- Capability bit for `wl_seat::Capability::Pointer`. -/
def capPointer : Nat := 1
/-- Capability bit for `wl_seat::Capability::Keyboard`. -/
def capKeyboard : Nat := 2
/-- Capability bit for `wl_seat::Capability::Touch`. -/
def capTouch : Nat := 4

/-- `Inner::compute_caps`: start from the empty bitmask and or in the
pointer/keyboard/touch bits according to handle presence. -/
def Inner.compute_caps (inner : Inner) : Nat :=
  let caps := 0
  let caps := if inner.pointer.isSome then caps ||| capPointer else caps
  let caps := if inner.keyboard.isSome then caps ||| capKeyboard else caps
  let caps := if inner.touch.isSome then caps ||| capTouch else caps
  caps

/-- Events a `WlSeat` binding can receive, paired below with the serial of the
receiving object. -/
inductive SeatEvent where
  | nameEv (s : String)
  | capabilitiesEv (mask : Nat)
deriving DecidableEq, Repr

/-- An event send recorded by a handler: target object id plus event. -/
structure Sent where
  target : WlObjectId
  event : SeatEvent
deriving DecidableEq, Repr

/-- `Inner::send_all_caps`: recompute the bitmask, then for every entry of
`known_seats` in order send `capabilities` to it if the weak reference still
resolves; a failed resolution sends nothing.  The method takes `&self`, so the
state it leaves behind is the state it was given. -/
def Inner.send_all_caps (live : Nat → Bool) (inner : Inner) : Inner × List Sent :=
  let capabilities := inner.compute_caps
  (inner,
    inner.known_seats.filterMap (fun seat =>
      match seat.upgrade live with
      | some s => some { target := s.rid, event := SeatEvent.capabilitiesEv capabilities }
      | none => none))

/-- The `Seat` handle (`crate::input::Seat`): equality is reference identity of
the shared `SeatRc` allocation, modelled by the allocation number. -/
structure SeatHandle where
  arcId : Nat
deriving DecidableEq, Repr

/-- `Seat::owns`: whether some entry of `known_seats` equals the given
resource (weak-vs-resource equality of the runtime, i.e. object identity). -/
def Seat.owns (inner : Inner) (seat : WlSeatRes) : Bool :=
  inner.known_seats.any (fun s => s.eqRes seat)

/-- `Seat::from_resource`: recover the seat handle from the `SeatUserData`
attached to the resource, if any. -/
def Seat.from_resource (seat : WlSeatRes) : Option SeatHandle :=
  seat.udata.map (fun a => { arcId := a })

/-- `Resource::client` of the runtime: the owning client of a resource, when
the resource is still alive. -/
def WlSeatRes.clientOf (live : Nat → Bool) (s : WlSeatRes) : Option Nat :=
  if live s.serial then some s.client else none

/-- `Seat::client_seats`: resolve every entry of `known_seats`, keep the
resources whose owning client is the given one. -/
def Seat.client_seats (live : Nat → Bool) (inner : Inner) (client : Nat) : List WlSeatRes :=
  (inner.known_seats.filterMap (fun w => w.upgrade live)).filter
    (fun s => (s.clientOf live).any (fun c => c == client))

/-- `Seat::global`: the stored global id. -/
def Seat.globalId (inner : Inner) : Option Nat :=
  inner.global

/-! ## Per-binding request dispatch (`Dispatch::request`, `Dispatch::destroyed`) -/

/-- `PointerUserData`: user data attached to a new `WlPointer` sub-object —
the pointer handle present at creation time (or `none`, leaving the object
permanently inert) and the requesting client's current scale snapshot. -/
structure PointerUserData where
  handle : Option PointerHandle
  client_scale : Nat
deriving DecidableEq, Repr

/-- `KeyboardUserData`: user data attached to a new `WlKeyboard` sub-object. -/
structure KeyboardUserData where
  handle : Option KeyboardHandle
deriving DecidableEq, Repr

/-- `TouchUserData`: user data attached to a new `WlTouch` sub-object. -/
structure TouchUserData where
  handle : Option TouchHandle
  client_scale : Nat
deriving DecidableEq, Repr

/-- The requests a bound `WlSeat` can carry.  `wl_seat::Request` declares
exactly `GetPointer`, `GetKeyboard`, `GetTouch` and `Release`; the enum is
non-exhaustive at the wire level, so `otherKind` stands for any other request
kind reaching the handler (the `_ => unreachable!()` arm). -/
inductive SeatRequest where
  | getPointer (id : Nat)
  | getKeyboard (id : Nat)
  | getTouch (id : Nat)
  | release
  | otherKind (opcode : Nat)
deriving DecidableEq, Repr

/-- Side effects of request dispatch: creating a sub-object with its user data
(`data_init.init`), and registering it with the present device handle
(`new_pointer` / `new_kbd` / `new_touch`). -/
inductive SubEffect where
  | initPointer (id : Nat) (data : PointerUserData)
  | regPointer (handle : PointerHandle) (id : Nat)
  | initKeyboard (id : Nat) (data : KeyboardUserData)
  | regKeyboard (handle : KeyboardHandle) (id : Nat)
  | initTouch (id : Nat) (data : TouchUserData)
  | regTouch (handle : TouchHandle) (id : Nat)
deriving DecidableEq, Repr

/-- Outcome of dispatching one request: either a list of sub-object effects,
or the fatal dispatch failure of the `unreachable!()` arm — a protocol
violation the connection runtime terminates the offending client for. -/
inductive DispatchOutcome where
  | ok (effects : List SubEffect)
  | protocolViolation
deriving DecidableEq, Repr

/-- `Dispatch::<WlSeat, SeatUserData>::request`: lock the shared state and
serve `get_pointer`/`get_keyboard`/`get_touch` by creating the sub-object with
the currently present handle cloned into its user data, registering the new
object with the handle only when the handle is present; `release` does
nothing; any other kind is `unreachable!()`.  No arm writes to the shared
state, so the state returned is the state given. -/
def seatRequest (inner : Inner) (client_scale : Nat) (req : SeatRequest) :
    Inner × DispatchOutcome :=
  match req with
  | .getPointer id =>
      let data : PointerUserData := { handle := inner.pointer, client_scale := client_scale }
      match inner.pointer with
      | some ptr_handle => (inner, .ok [.initPointer id data, .regPointer ptr_handle id])
      | none => (inner, .ok [.initPointer id data])
  | .getKeyboard id =>
      let data : KeyboardUserData := { handle := inner.keyboard }
      match inner.keyboard with
      | some h => (inner, .ok [.initKeyboard id data, .regKeyboard h id])
      | none => (inner, .ok [.initKeyboard id data])
  | .getTouch id =>
      let data : TouchUserData := { handle := inner.touch, client_scale := client_scale }
      match inner.touch with
      | some h => (inner, .ok [.initTouch id data, .regTouch h id])
      | none => (inner, .ok [.initTouch id data])
  | .release => (inner, .ok [])
  | .otherKind _ => (inner, .protocolViolation)

/-- `Dispatch::<WlSeat, SeatUserData>::destroyed`: retain in `known_seats`
exactly the entries whose id differs from the destroyed resource's id. -/
def seatDestroyed (inner : Inner) (seat : WlSeatRes) : Inner :=
  { inner with known_seats := inner.known_seats.filter (fun s => s.wid != seat.rid) }

/-! ## Global bind (`GlobalDispatch::bind`) -/

/-- What `GlobalDispatch::<WlSeat, SeatGlobalData>::bind` produces: the seat
state it leaves behind, the freshly initialised per-client resource, and the
events sent to that resource in order. -/
structure BindResult where
  inner : Inner
  resource : WlSeatRes
  events : List Sent
deriving Repr

/-- A `New<WlSeat>` waiting to be initialised: id pieces and negotiated
version, with no user data attached yet. -/
structure NewWlSeat where
  client : Nat
  serial : Nat
  version : Nat
deriving DecidableEq, Repr

/-- `GlobalDispatch::<WlSeat, SeatGlobalData>::bind`: initialise the resource
with `SeatUserData` pointing at the global's shared arc; send `name` when the
negotiated version is at least 2; then lock the shared state, send
`capabilities` with the freshly computed bitmask, and push a weak reference to
the new resource onto `known_seats`. -/
def seatBind (arcId : Nat) (seatName : String) (inner : Inner) (res : NewWlSeat) :
    BindResult :=
  let resource : WlSeatRes :=
    { client := res.client, serial := res.serial, version := res.version, udata := some arcId }
  let nameEvents :=
    if resource.version ≥ 2 then [{ target := resource.rid, event := SeatEvent.nameEv seatName }] else []
  let caps := inner.compute_caps
  { inner := { inner with known_seats := inner.known_seats ++ [resource.downgrade] }
    resource := resource
    events := nameEvents ++ [{ target := resource.rid, event := SeatEvent.capabilitiesEv caps }] }

/-! ## The `WaylandFocus` trait -/

/-- The default body of `WaylandFocus::same_client_as`, parametric in the
implementor's `wl_surface` accessor: resolve the surface, compare its id's
owning client with the given id, and report `false` when there is no
underlying surface. -/
def sameClientAsDefault {α : Type} (wlSurfaceOf : α → Option WlSurfaceRes)
    (x : α) (object_id : WlObjectId) : Bool :=
  ((wlSurfaceOf x).map (fun s => s.id.same_client_as object_id)).getD false

/-- `impl WaylandFocus for WlSurface`: `wl_surface` returns the surface
itself (a borrowed `Cow`). -/
def WlSurfaceRes.wl_surface (s : WlSurfaceRes) : Option WlSurfaceRes :=
  some s

/-! ## Supporting lemmas -/

/-- `compute_caps` written as a plain sum of the three capability bits. -/
theorem compute_caps_closed (inner : Inner) :
    inner.compute_caps =
      (if inner.pointer.isSome then capPointer else 0) +
      (if inner.keyboard.isSome then capKeyboard else 0) +
      (if inner.touch.isSome then capTouch else 0) := by
  cases hp : inner.pointer <;> cases hk : inner.keyboard <;> cases ht : inner.touch <;>
    simp [Inner.compute_caps, hp, hk, ht, capPointer, capKeyboard, capTouch]

/-- Filtering by a decidable test and mapping is the same as the
corresponding `filterMap`. -/
theorem filterMap_guard_eq {α β : Type} (p : α → Bool) (g : α → β) (l : List α) :
    l.filterMap (fun a => if p a then some (g a) else none) = (l.filter p).map g := by
  induction l with
  | nil => rfl
  | cons a t ih =>
      by_cases h : p a = true <;>
        simp [List.filterMap_cons, List.filter_cons, h, ih]

/-- Resolving a weak seat reference succeeds exactly on live serials, and
then returns the stored resource. -/
theorem upgrade_isSome (live : Nat → Bool) (w : WeakSeat) :
    (w.upgrade live).isSome = live w.obj.serial := by
  unfold WeakSeat.upgrade
  by_cases h : live w.obj.serial = true <;> simp [h]

/-- The capability fan-out over an arbitrary entry list: resolving entries
contribute one `capabilities` event each, in order; the rest contribute
nothing. -/
theorem send_caps_list (live : Nat → Bool) (caps : Nat) (l : List WeakSeat) :
    (l.filterMap (fun seat =>
        match seat.upgrade live with
        | some s => some (Sent.mk s.rid (SeatEvent.capabilitiesEv caps))
        | none => none)) =
      (l.filter (fun w => (w.upgrade live).isSome)).map
        (fun w => Sent.mk w.obj.rid (SeatEvent.capabilitiesEv caps)) := by
  induction l with
  | nil => rfl
  | cons a t ih =>
      by_cases h : live a.obj.serial = true
      · have ha : a.upgrade live = some a.obj := by simp [WeakSeat.upgrade, h]
        simp [List.filterMap_cons, List.filter_cons, ha, ih]
      · have ha : a.upgrade live = none := by simp [WeakSeat.upgrade, h]
        simp [List.filterMap_cons, List.filter_cons, ha, ih]

/-- The event list produced by `send_all_caps`, characterised as a
filter-then-map over `known_seats`. -/
theorem send_all_caps_events (live : Nat → Bool) (inner : Inner) :
    (inner.send_all_caps live).2 =
      (inner.known_seats.filter (fun w => (w.upgrade live).isSome)).map
        (fun w => Sent.mk w.obj.rid (SeatEvent.capabilitiesEv inner.compute_caps)) := by
  simp only [Inner.send_all_caps]
  exact send_caps_list live inner.compute_caps inner.known_seats

/-! ## Claims -/

/-- C2: the capability bitmask computed by `compute_caps` — and the one every
binding observes in `capabilities` events — has the Pointer bit (bit 0) set
iff the pointer handle field is `Some`, the Keyboard bit (bit 1) iff the
keyboard field is `Some`, and the Touch bit (bit 2) iff the touch field is
`Some`; it is a function of those three presence fields alone (no separately
stored bitmask), and every broadcast event carries exactly it. -/
theorem capability_bitmask_presence (inner : Inner) (live : Nat → Bool) :
    (Nat.testBit inner.compute_caps 0 = inner.pointer.isSome ∧
     Nat.testBit inner.compute_caps 1 = inner.keyboard.isSome ∧
     Nat.testBit inner.compute_caps 2 = inner.touch.isSome) ∧
    (∀ inner2 : Inner,
        inner.pointer.isSome = inner2.pointer.isSome →
        inner.keyboard.isSome = inner2.keyboard.isSome →
        inner.touch.isSome = inner2.touch.isSome →
        inner.compute_caps = inner2.compute_caps) ∧
    ∀ e ∈ (inner.send_all_caps live).2,
      e.event = SeatEvent.capabilitiesEv inner.compute_caps := by
  refine ⟨?_, ?_, ?_⟩
  · cases hp : inner.pointer <;> cases hk : inner.keyboard <;> cases ht : inner.touch <;>
      simp [Inner.compute_caps, hp, hk, ht, capPointer, capKeyboard, capTouch] <;> decide
  · intro inner2 h1 h2 h3
    rw [compute_caps_closed, compute_caps_closed, h1, h2, h3]
  · intro e he
    rw [send_all_caps_events] at he
    obtain ⟨w, _, rfl⟩ := List.mem_map.mp he
    rfl

/-- Witness for the C2 theorem: two concrete states with equal presence
patterns but distinct handle values compute the same bitmask. -/
theorem capability_bitmask_presence_witness :
    Inner.compute_caps
        { pointer := some { hid := 3 }, keyboard := none, touch := some { hid := 4 },
          known_seats := [], global := none } =
      Inner.compute_caps
        { pointer := some { hid := 9 }, keyboard := none, touch := some { hid := 0 },
          known_seats := [], global := none } :=
  (capability_bitmask_presence
      { pointer := some { hid := 3 }, keyboard := none, touch := some { hid := 4 },
        known_seats := [], global := none } (fun _ => true)).2.1
    { pointer := some { hid := 9 }, keyboard := none, touch := some { hid := 0 },
      known_seats := [], global := none } rfl rfl rfl

/-- C3: broadcasting recomputes the bitmask and sends one `capabilities`
event, in list order, to exactly the `known_seats` entries whose weak
reference still resolves; non-resolving entries are skipped without sending,
and the state — in particular the entry list — is left unchanged. -/
theorem broadcast_caps_spec (live : Nat → Bool) (inner : Inner) :
    (inner.send_all_caps live).1 = inner ∧
    (inner.send_all_caps live).2 =
      (inner.known_seats.filter (fun w => (w.upgrade live).isSome)).map
        (fun w => Sent.mk w.obj.rid (SeatEvent.capabilitiesEv inner.compute_caps)) ∧
    (inner.send_all_caps live).1.known_seats = inner.known_seats :=
  ⟨rfl, send_all_caps_events live inner, rfl⟩

/-- C4: any request kind other than the four protocol requests hits the
`unreachable!()` arm — a dispatch failure, modelled as `protocolViolation` —
and no request of any kind mutates the shared seat state. -/
theorem other_request_spec (inner : Inner) (client_scale opcode : Nat) :
    seatRequest inner client_scale (.otherKind opcode) = (inner, .protocolViolation) ∧
    ∀ req : SeatRequest, (seatRequest inner client_scale req).1 = inner := by
  refine ⟨rfl, ?_⟩
  intro req
  cases req with
  | getPointer id => cases h : inner.pointer <;> simp [seatRequest, h]
  | getKeyboard id => cases h : inner.keyboard <;> simp [seatRequest, h]
  | getTouch id => cases h : inner.touch <;> simp [seatRequest, h]
  | release => rfl
  | otherKind opcode2 => rfl

/-- C1: binding the seat global creates the per-client resource with the
seat's user data; at negotiated version at least 2 it sends `name` and then
`capabilities`, below 2 only `capabilities`; the `capabilities` event carries
the freshly computed bitmask and is always sent (it closes the event list
unconditionally); and a weak reference to the new resource is appended to
`known_seats`, the other state fields being untouched. -/
theorem bind_protocol_spec (arcId : Nat) (seatName : String) (inner : Inner)
    (res : NewWlSeat) :
    (seatBind arcId seatName inner res).resource =
      { client := res.client, serial := res.serial, version := res.version,
        udata := some arcId } ∧
    (res.version ≥ 2 →
      (seatBind arcId seatName inner res).events =
        [Sent.mk { client := res.client, serial := res.serial } (SeatEvent.nameEv seatName),
         Sent.mk { client := res.client, serial := res.serial }
           (SeatEvent.capabilitiesEv inner.compute_caps)]) ∧
    (res.version < 2 →
      (seatBind arcId seatName inner res).events =
        [Sent.mk { client := res.client, serial := res.serial }
           (SeatEvent.capabilitiesEv inner.compute_caps)]) ∧
    ((seatBind arcId seatName inner res).events.getLast? =
      some (Sent.mk { client := res.client, serial := res.serial }
        (SeatEvent.capabilitiesEv inner.compute_caps))) ∧
    ((seatBind arcId seatName inner res).inner.known_seats =
      inner.known_seats ++ [(seatBind arcId seatName inner res).resource.downgrade]) ∧
    (seatBind arcId seatName inner res).inner.pointer = inner.pointer ∧
    (seatBind arcId seatName inner res).inner.keyboard = inner.keyboard ∧
    (seatBind arcId seatName inner res).inner.touch = inner.touch ∧
    (seatBind arcId seatName inner res).inner.global = inner.global := by
  refine ⟨rfl, ?_, ?_, ?_, rfl, rfl, rfl, rfl, rfl⟩
  · intro h
    simp [seatBind, WlSeatRes.rid, h]
  · intro h
    have h2 : ¬ (2 ≤ res.version) := by omega
    simp [seatBind, WlSeatRes.rid, h2]
  · by_cases h : 2 ≤ res.version <;> simp [seatBind, WlSeatRes.rid, h]

/-- Witness for the C1 theorem: a version-9 bind of a pointer-only seat sends
`name` then `capabilities(1)`; a version-1 bind sends only `capabilities(1)`. -/
theorem bind_protocol_spec_witness :
    (seatBind 7 "seat-0"
        { pointer := some { hid := 1 }, keyboard := none, touch := none,
          known_seats := [], global := some 0 }
        { client := 2, serial := 5, version := 9 }).events =
      [Sent.mk { client := 2, serial := 5 } (SeatEvent.nameEv "seat-0"),
       Sent.mk { client := 2, serial := 5 } (SeatEvent.capabilitiesEv 1)] ∧
    (seatBind 7 "seat-0"
        { pointer := some { hid := 1 }, keyboard := none, touch := none,
          known_seats := [], global := some 0 }
        { client := 3, serial := 6, version := 1 }).events =
      [Sent.mk { client := 3, serial := 6 } (SeatEvent.capabilitiesEv 1)] :=
  ⟨(bind_protocol_spec 7 "seat-0"
      { pointer := some { hid := 1 }, keyboard := none, touch := none,
        known_seats := [], global := some 0 }
      { client := 2, serial := 5, version := 9 }).2.1 (by decide),
   (bind_protocol_spec 7 "seat-0"
      { pointer := some { hid := 1 }, keyboard := none, touch := none,
        known_seats := [], global := some 0 }
      { client := 3, serial := 6, version := 1 }).2.2.1 (by decide)⟩

/-- C5: a device-acquisition request is never rejected: the sub-object is
always created, carrying a clone of the handle field present at that moment in
its user data (a `none` handle when the capability is absent, leaving the
object permanently inert); it is registered with the device handle exactly
when one is present; and the seat state is returned unchanged.  Pointer,
keyboard and touch behave symmetrically. -/
theorem get_device_requests_spec (inner : Inner) (client_scale pid kid tid : Nat) :
    (inner.pointer = none →
      seatRequest inner client_scale (.getPointer pid) =
        (inner, .ok [.initPointer pid { handle := none, client_scale := client_scale }])) ∧
    (∀ h, inner.pointer = some h →
      seatRequest inner client_scale (.getPointer pid) =
        (inner, .ok [.initPointer pid { handle := some h, client_scale := client_scale },
                     .regPointer h pid])) ∧
    (inner.keyboard = none →
      seatRequest inner client_scale (.getKeyboard kid) =
        (inner, .ok [.initKeyboard kid { handle := none }])) ∧
    (∀ h, inner.keyboard = some h →
      seatRequest inner client_scale (.getKeyboard kid) =
        (inner, .ok [.initKeyboard kid { handle := some h }, .regKeyboard h kid])) ∧
    (inner.touch = none →
      seatRequest inner client_scale (.getTouch tid) =
        (inner, .ok [.initTouch tid { handle := none, client_scale := client_scale }])) ∧
    (∀ h, inner.touch = some h →
      seatRequest inner client_scale (.getTouch tid) =
        (inner, .ok [.initTouch tid { handle := some h, client_scale := client_scale },
                     .regTouch h tid])) := by
  refine ⟨?_, ?_, ?_, ?_, ?_, ?_⟩
  · intro h; simp [seatRequest, h]
  · intro hdl h; simp [seatRequest, h]
  · intro h; simp [seatRequest, h]
  · intro hdl h; simp [seatRequest, h]
  · intro h; simp [seatRequest, h]
  · intro hdl h; simp [seatRequest, h]

/-- Witness for the C5 theorem: concrete dispatches against a seat with no
capabilities (inert sub-objects, no registration) and against a seat with all
three handles (sub-objects registered with them). -/
theorem get_device_requests_spec_witness :
    (seatRequest
        { pointer := none, keyboard := none, touch := none, known_seats := [], global := none }
        4 (.getPointer 10) =
      ({ pointer := none, keyboard := none, touch := none, known_seats := [], global := none },
        .ok [.initPointer 10 { handle := none, client_scale := 4 }])) ∧
    (seatRequest
        { pointer := none, keyboard := none, touch := none, known_seats := [], global := none }
        4 (.getKeyboard 11) =
      ({ pointer := none, keyboard := none, touch := none, known_seats := [], global := none },
        .ok [.initKeyboard 11 { handle := none }])) ∧
    (seatRequest
        { pointer := none, keyboard := none, touch := none, known_seats := [], global := none }
        4 (.getTouch 12) =
      ({ pointer := none, keyboard := none, touch := none, known_seats := [], global := none },
        .ok [.initTouch 12 { handle := none, client_scale := 4 }])) ∧
    (seatRequest
        { pointer := some { hid := 1 }, keyboard := some { hid := 2 }, touch := some { hid := 3 },
          known_seats := [], global := none }
        4 (.getPointer 10) =
      ({ pointer := some { hid := 1 }, keyboard := some { hid := 2 }, touch := some { hid := 3 },
          known_seats := [], global := none },
        .ok [.initPointer 10 { handle := some { hid := 1 }, client_scale := 4 },
             .regPointer { hid := 1 } 10])) ∧
    (seatRequest
        { pointer := some { hid := 1 }, keyboard := some { hid := 2 }, touch := some { hid := 3 },
          known_seats := [], global := none }
        4 (.getKeyboard 11) =
      ({ pointer := some { hid := 1 }, keyboard := some { hid := 2 }, touch := some { hid := 3 },
          known_seats := [], global := none },
        .ok [.initKeyboard 11 { handle := some { hid := 2 } }, .regKeyboard { hid := 2 } 11])) ∧
    (seatRequest
        { pointer := some { hid := 1 }, keyboard := some { hid := 2 }, touch := some { hid := 3 },
          known_seats := [], global := none }
        4 (.getTouch 12) =
      ({ pointer := some { hid := 1 }, keyboard := some { hid := 2 }, touch := some { hid := 3 },
          known_seats := [], global := none },
        .ok [.initTouch 12 { handle := some { hid := 3 }, client_scale := 4 },
             .regTouch { hid := 3 } 12])) :=
  ⟨(get_device_requests_spec
      { pointer := none, keyboard := none, touch := none, known_seats := [], global := none }
      4 10 11 12).1 rfl,
   (get_device_requests_spec
      { pointer := none, keyboard := none, touch := none, known_seats := [], global := none }
      4 10 11 12).2.2.1 rfl,
   (get_device_requests_spec
      { pointer := none, keyboard := none, touch := none, known_seats := [], global := none }
      4 10 11 12).2.2.2.2.1 rfl,
   (get_device_requests_spec
      { pointer := some { hid := 1 }, keyboard := some { hid := 2 }, touch := some { hid := 3 },
        known_seats := [], global := none }
      4 10 11 12).2.1 { hid := 1 } rfl,
   (get_device_requests_spec
      { pointer := some { hid := 1 }, keyboard := some { hid := 2 }, touch := some { hid := 3 },
        known_seats := [], global := none }
      4 10 11 12).2.2.2.1 { hid := 2 } rfl,
   (get_device_requests_spec
      { pointer := some { hid := 1 }, keyboard := some { hid := 2 }, touch := some { hid := 3 },
        known_seats := [], global := none }
      4 10 11 12).2.2.2.2.2 { hid := 3 } rfl⟩

/-- C6: the destruction handler keeps exactly the `known_seats` entries whose
object identity differs from the destroyed resource's; afterwards `owns` is
false for the destroyed resource, it is absent from the per-client query, and
no capability broadcast targets it any more. -/
theorem destroyed_removes_matching (inner : Inner) (seat : WlSeatRes)
    (live : Nat → Bool) (client : Nat) :
    (∀ w : WeakSeat, w ∈ (seatDestroyed inner seat).known_seats ↔
        (w ∈ inner.known_seats ∧ w.wid ≠ seat.rid)) ∧
    Seat.owns (seatDestroyed inner seat) seat = false ∧
    (Seat.client_seats live (seatDestroyed inner seat) client).all
        (fun s => s.rid != seat.rid) = true ∧
    ((seatDestroyed inner seat).send_all_caps live).2.all
        (fun e => e.target != seat.rid) = true := by
  have hmem : ∀ w : WeakSeat, w ∈ (seatDestroyed inner seat).known_seats ↔
      (w ∈ inner.known_seats ∧ w.wid ≠ seat.rid) := by
    intro w
    simp [seatDestroyed, List.mem_filter, bne_iff_ne]
  refine ⟨hmem, ?_, ?_, ?_⟩
  · simp only [Seat.owns]
    rw [List.any_eq_false]
    intro w hw
    have hne := ((hmem w).mp hw).2
    simp [WeakSeat.eqRes, hne]
  · rw [List.all_eq_true]
    intro s hs
    simp only [Seat.client_seats, List.mem_filter] at hs
    obtain ⟨w, hw, hup⟩ := List.mem_filterMap.mp hs.1
    have hne := ((hmem w).mp hw).2
    have hobj : s = w.obj := by
      unfold WeakSeat.upgrade at hup
      by_cases hl : live w.obj.serial = true
      · rw [if_pos hl] at hup
        exact (Option.some_injective _ hup).symm
      · rw [if_neg hl] at hup
        exact absurd hup (Option.noConfusion)
    rw [bne_iff_ne, hobj]
    exact fun hc => hne hc
  · rw [send_all_caps_events, List.all_eq_true]
    intro e he
    obtain ⟨w, hw, rfl⟩ := List.mem_map.mp he
    have hne := ((hmem w).mp (List.mem_of_mem_filter hw)).2
    rw [bne_iff_ne]
    exact hne

/-- Witness for the C6 theorem: destroying one of two recorded bindings keeps
exactly the other, which still resolves, while the destroyed one is disowned
and receives nothing. -/
theorem destroyed_removes_matching_witness :
    (WeakSeat.mk { client := 1, serial := 3, version := 9, udata := some 0 } ∈
        (seatDestroyed
          { pointer := none, keyboard := none, touch := none,
            known_seats := [WeakSeat.mk { client := 1, serial := 2, version := 9, udata := some 0 },
                            WeakSeat.mk { client := 1, serial := 3, version := 9, udata := some 0 }],
            global := none }
          { client := 1, serial := 2, version := 9, udata := some 0 }).known_seats ↔
      (WeakSeat.mk { client := 1, serial := 3, version := 9, udata := some 0 } ∈
          [WeakSeat.mk { client := 1, serial := 2, version := 9, udata := some 0 },
           WeakSeat.mk { client := 1, serial := 3, version := 9, udata := some 0 }] ∧
        (WeakSeat.mk { client := 1, serial := 3, version := 9, udata := some 0 }).wid ≠
          ({ client := 1, serial := 2, version := 9, udata := some 0 } : WlSeatRes).rid)) ∧
    Seat.owns
        (seatDestroyed
          { pointer := none, keyboard := none, touch := none,
            known_seats := [WeakSeat.mk { client := 1, serial := 2, version := 9, udata := some 0 },
                            WeakSeat.mk { client := 1, serial := 3, version := 9, udata := some 0 }],
            global := none }
          { client := 1, serial := 2, version := 9, udata := some 0 })
        { client := 1, serial := 2, version := 9, udata := some 0 } = false :=
  ⟨(destroyed_removes_matching
      { pointer := none, keyboard := none, touch := none,
        known_seats := [WeakSeat.mk { client := 1, serial := 2, version := 9, udata := some 0 },
                        WeakSeat.mk { client := 1, serial := 3, version := 9, udata := some 0 }],
        global := none }
      { client := 1, serial := 2, version := 9, udata := some 0 } (fun _ => true) 1).1
    (WeakSeat.mk { client := 1, serial := 3, version := 9, udata := some 0 }),
   (destroyed_removes_matching
      { pointer := none, keyboard := none, touch := none,
        known_seats := [WeakSeat.mk { client := 1, serial := 2, version := 9, udata := some 0 },
                        WeakSeat.mk { client := 1, serial := 3, version := 9, udata := some 0 }],
        global := none }
      { client := 1, serial := 2, version := 9, udata := some 0 } (fun _ => true) 1).2.1⟩

/-- C7 counterexample: on a state holding a single stale entry for the
candidate — the weak reference no longer resolves — `owns` still returns
`true`, because the code compares object ids without resolving; so `owns` is
not equivalent to resolving to a live entry. -/
theorem owns_stale_entry_counterexample :
    Seat.owns
        { pointer := none, keyboard := none, touch := none,
          known_seats := [WeakSeat.mk { client := 1, serial := 2, version := 9, udata := some 0 }],
          global := none }
        { client := 1, serial := 2, version := 9, udata := some 0 } = true ∧
    (WeakSeat.mk { client := 1, serial := 2, version := 9, udata := some 0 }).upgrade
        (fun _ => false) = none ∧
    ¬ (Seat.owns
          { pointer := none, keyboard := none, touch := none,
            known_seats := [WeakSeat.mk { client := 1, serial := 2, version := 9, udata := some 0 }],
            global := none }
          { client := 1, serial := 2, version := 9, udata := some 0 } = true ↔
        ∃ w ∈ [WeakSeat.mk { client := 1, serial := 2, version := 9, udata := some 0 }],
          w.wid = ({ client := 1, serial := 2, version := 9, udata := some 0 } : WlSeatRes).rid ∧
          w.upgrade (fun _ => false) = some w.obj) := by
  refine ⟨by decide, by decide, ?_⟩
  intro hiff
  have h := hiff.mp (by decide)
  revert h
  decide

/-- C7 (amended): `owns` is true exactly when some `known_seats` entry
matches the candidate's object identity — the comparison does not resolve the
weak reference, so a matching stale entry still reports true; `owns` is false
for any candidate no entry matches (never recorded, or already pruned by the
destruction handler); and on states whose recorded entries are all still live
— the invariant the handlers maintain — the identity match coincides with
resolving to a live entry. -/
theorem owns_iff_matching_entry (inner : Inner) (seat : WlSeatRes) (live : Nat → Bool) :
    (Seat.owns inner seat = true ↔ ∃ w ∈ inner.known_seats, w.wid = seat.rid) ∧
    ((∀ w ∈ inner.known_seats, w.wid ≠ seat.rid) → Seat.owns inner seat = false) ∧
    ((∀ w ∈ inner.known_seats, live w.obj.serial = true) →
      (Seat.owns inner seat = true ↔
        ∃ w ∈ inner.known_seats, w.wid = seat.rid ∧ w.upgrade live = some w.obj)) := by
  refine ⟨?_, ?_, ?_⟩
  · constructor
    · intro h
      obtain ⟨w, hw, heq⟩ := List.any_eq_true.mp h
      exact ⟨w, hw, by simpa [WeakSeat.eqRes] using heq⟩
    · rintro ⟨w, hw, hid⟩
      exact List.any_eq_true.mpr ⟨w, hw, by simp [WeakSeat.eqRes, hid]⟩
  · intro hnone
    simp only [Seat.owns]
    rw [List.any_eq_false]
    intro w hw
    simp [WeakSeat.eqRes, hnone w hw]
  · intro hlive
    constructor
    · intro h
      obtain ⟨w, hw, heq⟩ := List.any_eq_true.mp h
      refine ⟨w, hw, by simpa [WeakSeat.eqRes] using heq, ?_⟩
      unfold WeakSeat.upgrade
      rw [hlive w hw]
      simp
    · rintro ⟨w, hw, hid, _⟩
      exact List.any_eq_true.mpr ⟨w, hw, by simp [WeakSeat.eqRes, hid]⟩

/-- Witness for the amended C7 theorem: a one-entry state, queried with the
recorded object (under a liveness map keeping everything live) and with an
unrelated object no entry matches. -/
theorem owns_iff_matching_entry_witness :
    (Seat.owns
        { pointer := none, keyboard := none, touch := none,
          known_seats := [WeakSeat.mk { client := 1, serial := 2, version := 9, udata := some 0 }],
          global := none }
        { client := 1, serial := 2, version := 9, udata := some 0 } = true ↔
      ∃ w ∈ [WeakSeat.mk { client := 1, serial := 2, version := 9, udata := some 0 }],
        w.wid = ({ client := 1, serial := 2, version := 9, udata := some 0 } : WlSeatRes).rid ∧
        w.upgrade (fun _ => true) = some w.obj) ∧
    Seat.owns
        { pointer := none, keyboard := none, touch := none,
          known_seats := [WeakSeat.mk { client := 1, serial := 2, version := 9, udata := some 0 }],
          global := none }
        { client := 9, serial := 9, version := 9, udata := none } = false :=
  ⟨(owns_iff_matching_entry
      { pointer := none, keyboard := none, touch := none,
        known_seats := [WeakSeat.mk { client := 1, serial := 2, version := 9, udata := some 0 }],
        global := none }
      { client := 1, serial := 2, version := 9, udata := some 0 }
      (fun _ => true)).2.2 (by intro w hw; rfl),
   (owns_iff_matching_entry
      { pointer := none, keyboard := none, touch := none,
        known_seats := [WeakSeat.mk { client := 1, serial := 2, version := 9, udata := some 0 }],
        global := none }
      { client := 9, serial := 9, version := 9, udata := none }
      (fun _ => true)).2.1 (by decide)⟩

/-- C8: the resource created by binding carries the seat's shared-state
identity in its user data, so `from_resource` recovers exactly the
originating seat handle; a resource with no seat user data yields `none`. -/
theorem from_resource_round_trip (arcId : Nat) (seatName : String) (inner : Inner)
    (res : NewWlSeat) :
    Seat.from_resource (seatBind arcId seatName inner res).resource = some { arcId := arcId } ∧
    (∀ s : WlSeatRes, s.udata = none → Seat.from_resource s = none) ∧
    (∀ s : WlSeatRes, ∀ a : Nat, s.udata = some a →
      Seat.from_resource s = some { arcId := a }) := by
  refine ⟨rfl, ?_, ?_⟩
  · intro s hs
    simp [Seat.from_resource, hs]
  · intro s a hs
    simp [Seat.from_resource, hs]

/-- Witness for the C8 theorem: the round trip on a concrete bind and the
`none` case on a resource with no user data. -/
theorem from_resource_round_trip_witness :
    Seat.from_resource
        (seatBind 42 "seat-0"
          { pointer := none, keyboard := none, touch := none, known_seats := [], global := none }
          { client := 0, serial := 1, version := 9 }).resource = some { arcId := 42 } ∧
    Seat.from_resource { client := 0, serial := 1, version := 9, udata := none } = none :=
  ⟨(from_resource_round_trip 42 "seat-0"
      { pointer := none, keyboard := none, touch := none, known_seats := [], global := none }
      { client := 0, serial := 1, version := 9 }).1,
   (from_resource_round_trip 42 "seat-0"
      { pointer := none, keyboard := none, touch := none, known_seats := [], global := none }
      { client := 0, serial := 1, version := 9 }).2.1
     { client := 0, serial := 1, version := 9, udata := none } rfl⟩

/-- C9: the default `same_client_as` of the `WaylandFocus` trait reports
`false` whenever the implementor's `wl_surface` is `none`, and otherwise
compares the surface id's owning connection with the given object id. -/
theorem same_client_as_default_spec (α : Type) (wlSurfaceOf : α → Option WlSurfaceRes)
    (x : α) (object_id : WlObjectId) :
    (wlSurfaceOf x = none → sameClientAsDefault wlSurfaceOf x object_id = false) ∧
    (∀ s, wlSurfaceOf x = some s →
      sameClientAsDefault wlSurfaceOf x object_id = s.id.same_client_as object_id) := by
  constructor
  · intro h
    simp [sameClientAsDefault, h]
  · intro s h
    simp [sameClientAsDefault, h]

/-- Witness for the C9 theorem: a surfaceless target never belongs to any
connection; a target resolving to a surface compares owning connections. -/
theorem same_client_as_default_spec_witness :
    sameClientAsDefault (fun _ : WlSurfaceRes => none)
        { oid := { client := 0, serial := 0 } } { client := 0, serial := 1 } = false ∧
    sameClientAsDefault WlSurfaceRes.wl_surface
        { oid := { client := 3, serial := 4 } } { client := 3, serial := 9 } = true :=
  ⟨(same_client_as_default_spec WlSurfaceRes (fun _ => none)
      { oid := { client := 0, serial := 0 } } { client := 0, serial := 1 }).1 rfl,
   (same_client_as_default_spec WlSurfaceRes WlSurfaceRes.wl_surface
      { oid := { client := 3, serial := 4 } } { client := 3, serial := 9 }).2
     { oid := { client := 3, serial := 4 } } rfl⟩

/-- C10: the `WaylandFocus` implementation for `WlSurface` always returns the
surface itself, so the derived `same_client_as` is exactly the same-client
comparison of the surface's own id with the given id, and a surface is never
without an underlying surface (the trait's precondition holds). -/
theorem wl_surface_focus_impl (s : WlSurfaceRes) (object_id : WlObjectId) :
    s.wl_surface = some s ∧
    (s.wl_surface).isSome = true ∧
    sameClientAsDefault WlSurfaceRes.wl_surface s object_id =
      s.id.same_client_as object_id :=
  ⟨rfl, rfl, rfl⟩

/-! ## Supporting invariant lemmas

The liveness invariant assumed by the `owns` characterisation — every
recorded entry still resolves — is maintained by the handlers: binding
records an entry for a freshly created (live) resource, and destruction
removes exactly the destroyed resource's entries. -/

/-- Binding preserves the entry-liveness invariant when the new resource is
live. -/
theorem bind_preserves_live (arcId : Nat) (seatName : String) (inner : Inner)
    (res : NewWlSeat) (live : Nat → Bool)
    (hlive : ∀ w ∈ inner.known_seats, live w.obj.serial = true)
    (hnew : live res.serial = true) :
    ∀ w ∈ (seatBind arcId seatName inner res).inner.known_seats,
      live w.obj.serial = true := by
  intro w hw
  simp only [seatBind, List.mem_append, List.mem_singleton] at hw
  rcases hw with hw | hw
  · exact hlive w hw
  · rw [hw]
    exact hnew

/-- Destruction preserves the entry-liveness invariant even when the
destroyed resource's serial goes dead, provided serials identify objects
uniquely among the recorded entries. -/
theorem destroyed_preserves_live (inner : Inner) (seat : WlSeatRes) (live : Nat → Bool)
    (hlive : ∀ w ∈ inner.known_seats, live w.obj.serial = true)
    (huniq : ∀ w ∈ inner.known_seats, w.obj.serial = seat.serial → w.wid = seat.rid) :
    ∀ w ∈ (seatDestroyed inner seat).known_seats,
      (fun n => live n && !(n == seat.serial)) w.obj.serial = true := by
  intro w hw
  have hw' : w ∈ inner.known_seats.filter (fun s => s.wid != seat.rid) := hw
  rw [List.mem_filter] at hw'
  obtain ⟨hw2, hne⟩ := hw'
  have hser : w.obj.serial ≠ seat.serial := by
    intro hc
    rw [bne_iff_ne] at hne
    exact hne (huniq w hw2 hc)
  simp [hlive w hw2, hser]

end SmithaySeat
